import Mathlib

/-!
Verification development for the Koyeb account checker
(src/koyeb-alive/workers.js).

The script loads `email:PAT` account pairs from the KOYEB_LOGIN
environment variable, verifies each account against the Koyeb profile
endpoint with a fixed 10 s throttle delay before each check, aggregates
one textual report, sends it to Telegram best-effort, and exits non-zero
when configuration loading fails or no account verified successfully.

The JavaScript string operations used by the script (trim, split,
toLowerCase, join) are embedded as computable functions over `List Char`
so that every definition evaluates inside the kernel.
-/

/-- Whitespace as trimmed by JavaScript `String.prototype.trim` on the
inputs this script handles (space, tab, newline, carriage return). -/
def isJsWs (c : Char) : Bool := c = ' ' || c = '\t' || c = '\n' || c = '\r'

/-- Remove leading and trailing whitespace from a character list. -/
def trimChars (l : List Char) : List Char :=
  ((l.dropWhile isJsWs).reverse.dropWhile isJsWs).reverse

/-- JavaScript `s.trim()`. -/
def jsTrim (s : String) : String := String.mk (trimChars s.data)

/-- Worker for `splitChar`: accumulates the current segment reversed. -/
def splitCharAux (sep : Char) : List Char → List Char → List (List Char)
  | [], acc => [acc.reverse]
  | c :: cs, acc =>
    if c = sep then acc.reverse :: splitCharAux sep cs []
    else splitCharAux sep cs (c :: acc)

/-- JavaScript `s.split(sep)` for a single-character separator. -/
def splitChar (sep : Char) (l : List Char) : List (List Char) :=
  splitCharAux sep l []

/-- JavaScript `s.toLowerCase()` (ASCII range, which covers the email
comparisons performed by the script). -/
def jsToLower (s : String) : String := String.mk (s.data.map Char.toLower)

/-- JavaScript `array.join('')`. -/
def joinAll : List String → String
  | [] => ""
  | s :: rest => s ++ joinAll rest

/-- JavaScript `array.join(sep)`. -/
def joinSep (sep : String) : List String → String
  | [] => ""
  | [s] => s
  | s :: rest => s ++ sep ++ joinSep sep rest

/-- JavaScript `a || b` for strings: `a` when truthy (non-empty),
otherwise `b`. The left operand may be absent (undefined). -/
def jsOrStr (v : Option String) (d : String) : String :=
  match v with
  | none => d
  | some s => if s = "" then d else s

/-- JavaScript falsiness of an optional string: absent or empty. -/
def jsFalsy (s : Option String) : Bool :=
  match s with
  | none => true
  | some v => v = ""

/-- One account loaded from KOYEB_LOGIN: an email and a personal access
token, both trimmed and non-empty at parse time. -/
structure Account where
  email : String
  pat : String
deriving DecidableEq, Repr

/-- Embedding of the `line.indexOf(':')` / `substring` combination of the
source: split a
character list at the FIRST colon, `none` when no colon occurs
(`!line.includes(':')`). -/
def splitFirstColon : List Char → Option (List Char × List Char)
  | [] => none
  | c :: cs =>
    if c = ':' then some ([], cs)
    else
      match splitFirstColon cs with
      | none => none
      | some p => some (c :: p.1, p.2)

/-- One iteration of the parsing loop in `validateAndLoadAccounts`
(workers.js lines 80-97): trim the raw line, skip empty lines and lines
without a colon, split at the first colon, trim both halves, keep the
pair only when both are non-empty. -/
def parseLine (rawLine : List Char) : Option Account :=
  let line := trimChars rawLine
  if line = [] then none
  else
    match splitFirstColon line with
    | none => none
    | some p =>
      let email := String.mk (trimChars p.1)
      let pat := String.mk (trimChars p.2)
      if email ≠ "" ∧ pat ≠ "" then some ⟨email, pat⟩ else none

/-- Embedding of `koyebLoginEnv.trim().split('\n')` followed by the
per-line loop:
the list of accounts parsed from the raw KOYEB_LOGIN text. -/
def parseAccountLines (raw : String) : List Account :=
  (splitChar '\n' (trimChars raw.data)).filterMap parseLine

/-- Embedding of `validateAndLoadAccounts` (workers.js lines 69-104). The
environment
variable is `none` when unset; an unset or empty variable throws, as does
a parse yielding zero valid accounts. -/
def validateAndLoadAccounts (env : Option String) : Except String (List Account) :=
  match env with
  | none => .error "必须配置 KOYEB_LOGIN 环境变量"
  | some raw =>
    if raw = "" then .error "必须配置 KOYEB_LOGIN 环境变量"
    else
      let accounts := parseAccountLines raw
      if accounts.isEmpty then
        .error "KOYEB_LOGIN 环境变量未包含任何有效账户信息"
      else .ok accounts

/-- The `user` object of the profile JSON body, fields optional as in the
defensive accesses `userInfo.email || ''` etc. -/
structure JsonUser where
  email : Option String
  flags : Option (List String)
  email_validated : Option Bool
deriving DecidableEq, Repr

/-- A parsed JSON response body: the optional `user` object
(`profileData.user || {}`) and the optional `error` field read in the
non-2xx branch (`errorData.error`). -/
structure JsonBody where
  user : Option JsonUser
  error : Option String
deriving DecidableEq, Repr

/-- An HTTP response as observed by the script: status code, the result
of `response.json()` (`none` when the body is not valid JSON, with
`parseErrMsg` the message of the exception that `json()` then throws),
the raw `response.text()`, and `response.statusText`. -/
structure HttpResponse where
  status : Nat
  jsonBody : Option JsonBody
  parseErrMsg : String
  rawText : String
  statusText : String
deriving DecidableEq, Repr

/-- Result of one `fetchWithTimeout` call: a response, an abort
(timeout), or another thrown error with its message. -/
inductive FetchOutcome where
  | ok (resp : HttpResponse)
  | abortError
  | otherError (msg : String)
deriving DecidableEq, Repr

/-- The `{success, message}` object returned by
`verifyKoyebAccountStatus`. -/
structure VerifyResult where
  success : Bool
  message : String
deriving DecidableEq, Repr

/-- Embedding of `response.ok`: status in the range 200-299. -/
def responseOk (st : Nat) : Bool := decide (200 ≤ st ∧ st ≤ 299)

/-- Embedding of `profileData.user || {}`. -/
def extractUser (b : JsonBody) : JsonUser := b.user.getD ⟨none, none, none⟩

/-- Embedding of `userInfo.email || ''`. -/
def returnedEmailOf (b : JsonBody) : String := jsOrStr (extractUser b).email ""

/-- Embedding of `userInfo.flags || []`. -/
def flagsOf (b : JsonBody) : List String := ((extractUser b).flags).getD []

/-- Embedding of `userInfo.email_validated || false`. -/
def emailValidatedOf (b : JsonBody) : Bool :=
  ((extractUser b).email_validated).getD false

/-- Embedding of `JSON.stringify(userInfo)` restricted to the three fields
the model
tracks, omitting absent fields as `JSON.stringify` omits `undefined`. -/
def jsonStringifyUser (u : JsonUser) : String :=
  let q : String → String := fun s => "\"" ++ s ++ "\""
  let fields :=
    (match u.email with
      | none => []
      | some e => ["\"email\":" ++ q e]) ++
    (match u.flags with
      | none => []
      | some fs => ["\"flags\":[" ++ joinSep "," (fs.map q) ++ "]"]) ++
    (match u.email_validated with
      | none => []
      | some v => ["\"email_validated\":" ++ (if v then "true" else "false")])
  "\x7b" ++ joinSep "," fields ++ "\x7d"

/-- The strict-validation decision chain on a 2xx profile body
(workers.js lines 198-227): identity mismatch first, then the
active-flag / email-validated cases, with a final defensive
unknown-account branch. -/
def classifyUser (email : String) (b : JsonBody) : VerifyResult :=
  let returnedEmail := returnedEmailOf b
  let flags := flagsOf b
  let emailValidated := emailValidatedOf b
  if jsToLower returnedEmail ≠ jsToLower email then
    { success := false
      message := "验证失败：API返回邮箱(" ++ returnedEmail ++ ")与提供邮箱不匹配。" }
  else
    let isActive := flags.contains "ACTIVE"
    if isActive && emailValidated then
      { success := true, message := "活跃且邮箱已验证" }
    else if !isActive then
      { success := false
        message := "原因: 非活跃 (Flags: " ++ joinSep ", " flags ++ ")" }
    else if !emailValidated then
      { success := false, message := "原因: 邮箱未验证" }
    else
      { success := false
        message := "原因: 未知账户: " ++ jsonStringifyUser (extractUser b) }

/-- Error message extraction of the generic non-2xx branch
(workers.js lines 183-189): `errorData.error || response.statusText`
when the body parses as JSON, otherwise the raw response text. -/
def apiErrorMessage (resp : HttpResponse) : String :=
  match resp.jsonBody with
  | some b => jsOrStr b.error resp.statusText
  | none => resp.rawText

/-- Embedding of `verifyKoyebAccountStatus` (workers.js lines 160-235),
with the
network interaction abstracted into a `FetchOutcome`. -/
def verifyKoyebAccountStatus (email pat : String) (outcome : FetchOutcome) :
    VerifyResult :=
  if email = "" ∨ pat = "" then
    { success := false, message := "邮箱或个人访问令牌 (PAT) 为空" }
  else
    match outcome with
    | .abortError => { success := false, message := "原因: 请求超时" }
    | .otherError m =>
      { success := false, message := "原因: 网络请求异常: " ++ m }
    | .ok resp =>
      if resp.status = 401 ∨ resp.status = 403 then
        { success := false, message := "验证失败：PAT 无效或已过期。" }
      else if !responseOk resp.status then
        { success := false
          message := "原因: API错误 (状态码 " ++ toString resp.status ++ "): "
            ++ apiErrorMessage resp }
      else
        match resp.jsonBody with
        | none =>
          { success := false
            message := "原因: 网络请求异常: " ++ resp.parseErrMsg }
        | some b => classifyUser email b

/-- Result of the Telegram `fetchWithTimeout` POST: a response with its
`ok` flag and the result of `response.json()` on it (`none` when the body
is not valid JSON), an abort, or another thrown error. -/
inductive TgOutcome where
  | ok (okFlag : Bool) (jsonBody : Option String) (rawText : String)
  | abortError
  | otherError (msg : String)
deriving DecidableEq, Repr

/-- Embedding of `sendTgMessage` (workers.js lines 111-152): skip (return
`null`) when
either credential is unset or empty; on HTTP error, abort, or any other
failure return `null`; otherwise return the parsed response JSON. -/
def sendTgMessage (botToken chatId : Option String) (message : String)
    (outcome : TgOutcome) : Option String :=
  if jsFalsy botToken || jsFalsy chatId then none
  else
    match outcome with
    | .abortError => none
    | .otherError _ => none
    | .ok okFlag body _ =>
      if !okFlag then none
      else body

/-- Behaviour of one `verifyKoyebAccountStatus(...)` call site in the
main loop, indexed by account position: either the awaited call threw an
unexpected exception with the given message, or it completed over the
given fetch outcome. -/
inductive VerifyAttempt where
  | throws (msg : String)
  | completes (outcome : FetchOutcome)
deriving DecidableEq, Repr

/-- Report line pushed for a completed verification
(workers.js lines 265-273). -/
def accountLine (email : String) (r : VerifyResult) : String :=
  if r.success then
    "账户: `" ++ email ++ "`\n状态: ✅ " ++ r.message ++ "\n"
  else
    "账户: `" ++ email ++ "`\n状态: ❌ 验证失败\n  " ++ r.message ++ "\n"

/-- Report line pushed when the verification call threw
(workers.js line 276). -/
def exceptionLine (email m : String) : String :=
  "账户: `" ++ email ++ "`\n状态: ❌ 验证失败\n  执行时发生未知异常 - " ++ m ++ "\n"

/-- Report line pushed for an account with missing email or PAT
(workers.js line 255). -/
def incompleteLine : String := "账户: 未提供邮箱\n状态: ❌ 信息不完整\n"

/-- The per-account loop of `main` (workers.js lines 248-278), started at
index `i`: returns the `results` lines in push order and `successCount`. -/
def runLoop : List Account → Nat → (Nat → VerifyAttempt) → List String × Nat
  | [], _, _ => ([], 0)
  | a :: rest, i, oracle =>
    let r := runLoop rest (i + 1) oracle
    let email := jsTrim a.email
    let pat := a.pat
    if email = "" ∨ pat = "" then
      (incompleteLine :: r.1, r.2)
    else
      match oracle i with
      | .throws m => (exceptionLine email m :: r.1, r.2)
      | .completes outcome =>
        let v := verifyKoyebAccountStatus email pat outcome
        (accountLine email v :: r.1, if v.success then r.2 + 1 else r.2)

/-- The `summary` line of the report (workers.js line 281). -/
def reportSummary (total successCount : Nat) : String :=
  "📊 总计: " ++ toString total ++ " 个账户\n✅ 成功: " ++ toString successCount
    ++ " 个 | ❌ 失败: " ++ toString (total - successCount) ++ " 个"

/-- Everything of the rendered report that precedes the per-account
lines: header with the run timestamp, summary, separator. -/
def reportHead (currentTime : String) (total successCount : Nat) : String :=
  "🤖 *Koyeb 账户状态报告* 🤖\n=====================\n⏰ 日期: " ++ currentTime
    ++ "\n" ++ reportSummary total successCount
    ++ "\n---------------------------\n"

/-- The composed Telegram message (workers.js lines 281-288):
header, summary, separator, then `results.join('')`. -/
def renderReport (currentTime : String) (total successCount : Nat)
    (results : List String) : String :=
  reportHead currentTime total successCount ++ joinAll results

/-- Observable outcome of one run of `main`. -/
structure RunOutput where
  exitCode : Nat
  report : Option String
  tgResult : Option String
deriving DecidableEq, Repr

/-- Embedding of `main` (workers.js lines 239-306). `env` is KOYEB_LOGIN,
`oracle`
gives each verification call site its behaviour, `currentTime` is the
formatted Beijing time, `tgOutcome` / `errTgOutcome` the Telegram
delivery outcomes on the success and error paths. A run that does not
call `process.exit(1)` ends with exit status 0. -/
def mainRun (env : Option String) (oracle : Nat → VerifyAttempt)
    (currentTime : String) (botToken chatId : Option String)
    (tgOutcome errTgOutcome : TgOutcome) : RunOutput :=
  match validateAndLoadAccounts env with
  | .error e =>
    let msg := "❌ 程序初始化失败: " ++ e
    { exitCode := 1
      report := none
      tgResult := sendTgMessage botToken chatId msg errTgOutcome }
  | .ok accounts =>
    let r := runLoop accounts 0 oracle
    let total := accounts.length
    let successCount := r.2
    let msg := renderReport currentTime total successCount r.1
    { exitCode := if successCount = 0 ∧ total > 0 then 1 else 0
      report := some msg
      tgResult := sendTgMessage botToken chatId msg tgOutcome }

/-- Observable suspension/call events of the main loop, for the
throttling claim. -/
inductive Event where
  | sleepEv (ms : Nat)
  | verifyEv (email pat : String)
  | skipEv
deriving DecidableEq, Repr

/-- Event trace of the main loop (workers.js lines 248-278): an
incomplete account produces only a skip; a complete account produces
`await sleep(10000)` followed directly by the
`verifyKoyebAccountStatus` call. -/
def loopTrace : List Account → List Event
  | [] => []
  | a :: rest =>
    let email := jsTrim a.email
    let pat := a.pat
    if email = "" ∨ pat = "" then
      Event.skipEv :: loopTrace rest
    else
      Event.sleepEv 10000 :: Event.verifyEv email pat :: loopTrace rest

/-- Specification-side predicate: every verification call in the trace
is immediately preceded by a 10000 ms sleep. -/
def delayBeforeEveryVerify : List Event → Bool
  | [] => true
  | Event.sleepEv ms :: Event.verifyEv _ _ :: rest =>
    ms == 10000 && delayBeforeEveryVerify rest
  | Event.verifyEv _ _ :: _ => false
  | _ :: rest => delayBeforeEveryVerify rest

/-- Modelled from the spec (section 4.1): per-line parsing described by
its words — for a trimmed non-empty line containing a separator, split on
the FIRST occurrence of the separator into identity and secret, trim
both, keep the account only when both are non-empty; all other lines are
skipped. Stated with `takeWhile`/`dropWhile` rather than the recursive
first-colon split of the source, to be compared with `parseLine`. -/
def parseLineSpec (rawLine : List Char) : Option Account :=
  let line := trimChars rawLine
  if ':' ∈ line then
    let email := String.mk (trimChars (line.takeWhile (fun c => c ≠ ':')))
    let pat := String.mk (trimChars (line.dropWhile (fun c => c ≠ ':')).tail)
    if email ≠ "" ∧ pat ≠ "" then some ⟨email, pat⟩ else none
  else none

/-- Modelled from the spec (sections 4.2 steps 6-9): the 2xx decision
chain with only three branches — mismatch, inactive, and otherwise the
email-validated dichotomy — i.e. without the defensive unknown-account
branch of the source. -/
def classifyUserThree (email : String) (b : JsonBody) : VerifyResult :=
  let returnedEmail := returnedEmailOf b
  let flags := flagsOf b
  let emailValidated := emailValidatedOf b
  if jsToLower returnedEmail ≠ jsToLower email then
    { success := false
      message := "验证失败：API返回邮箱(" ++ returnedEmail ++ ")与提供邮箱不匹配。" }
  else if flags.contains "ACTIVE" then
    if emailValidated then
      { success := true, message := "活跃且邮箱已验证" }
    else
      { success := false, message := "原因: 邮箱未验证" }
  else
    { success := false
      message := "原因: 非活跃 (Flags: " ++ joinSep ", " flags ++ ")" }

/-! ## Helper lemmas -/

/-- The recursive first-colon split of the source equals the
`takeWhile`/`dropWhile` description of "split on the first occurrence of
the separator". -/
theorem splitFirstColon_eq_spec (l : List Char) :
    splitFirstColon l =
      if ':' ∈ l then
        some (l.takeWhile (fun c => c ≠ ':'), (l.dropWhile (fun c => c ≠ ':')).tail)
      else none := by
  induction l with
  | nil => simp [splitFirstColon]
  | cons c cs ih =>
    by_cases hc : c = ':'
    · subst hc
      simp [splitFirstColon, List.takeWhile_cons, List.dropWhile_cons]
    · rw [splitFirstColon, if_neg hc, ih]
      by_cases hm : ':' ∈ cs
      · have hmc : ':' ∈ c :: cs := List.mem_cons_of_mem c hm
        simp [hm, hmc, List.takeWhile_cons, List.dropWhile_cons, hc]
      · have hmc : ¬ (':' ∈ c :: cs) := by
          simp [List.mem_cons, hm]
          intro he
          exact absurd he.symm hc
        simp [hm, hmc]

/-- Per-line parsing of the source agrees with the per-line parsing
described by the spec. -/
theorem parseLine_eq_spec (l : List Char) : parseLine l = parseLineSpec l := by
  simp only [parseLine, parseLineSpec]
  rw [splitFirstColon_eq_spec]
  by_cases h : ':' ∈ trimChars l
  · have hne : ¬ (trimChars l = []) := by
      intro he
      rw [he] at h
      simp at h
    simp [h, hne]
  · by_cases he : trimChars l = [] <;> simp [h, he]

/-- Length of a `filterMap` counted through the underlying filter. -/
theorem length_filterMap_eq {α β : Type} (f : α → Option β) (l : List α) :
    (l.filterMap f).length = (l.filter (fun a => (f a).isSome)).length := by
  induction l with
  | nil => rfl
  | cons a t ih => cases h : f a <;> simp [List.filterMap_cons, h, List.filter_cons, ih]

/-- A successful account load never returns an empty list. -/
theorem validate_ok_ne_nil (env : Option String) (accs : List Account)
    (h : validateAndLoadAccounts env = .ok accs) : accs ≠ [] := by
  cases env with
  | none => simp [validateAndLoadAccounts] at h
  | some raw =>
    by_cases hr : raw = ""
    · simp [validateAndLoadAccounts, hr] at h
    · by_cases hacc : (parseAccountLines raw).isEmpty
      · simp [validateAndLoadAccounts, hr, hacc] at h
      · simp [validateAndLoadAccounts, hr, hacc] at h
        subst h
        simpa [List.isEmpty_iff] using hacc

/-- On a 2xx response with a JSON body, `verifyKoyebAccountStatus`
reduces to the strict-validation chain. -/
theorem verify_2xx_eq_classify (email pat : String) (resp : HttpResponse)
    (b : JsonBody) (he : email ≠ "") (hp : pat ≠ "")
    (hok : responseOk resp.status = true) (hb : resp.jsonBody = some b) :
    verifyKoyebAccountStatus email pat (.ok resp) = classifyUser email b := by
  have hrange : 200 ≤ resp.status ∧ resp.status ≤ 299 := by
    rw [responseOk] at hok
    exact of_decide_eq_true hok
  have h1 : ¬ (resp.status = 401 ∨ resp.status = 403) := by omega
  simp [verifyKoyebAccountStatus, he, hp, h1, hok, hb]

/-- Lemma: `joinAll` distributes over list append. -/
theorem joinAll_append (xs ys : List String) :
    joinAll (xs ++ ys) = joinAll xs ++ joinAll ys := by
  induction xs with
  | nil => simp [joinAll]
  | cons s t ih => simp [joinAll, ih, String.append_assoc]

/-- The main loop records exactly one line per account. -/
theorem runLoop_length (accounts : List Account) :
    ∀ (i : Nat) (oracle : Nat → VerifyAttempt),
      (runLoop accounts i oracle).1.length = accounts.length := by
  induction accounts with
  | nil => intro i oracle; rfl
  | cons a rest ih =>
    intro i oracle
    by_cases h : jsTrim a.email = "" ∨ a.pat = ""
    · simp [runLoop, h, ih]
    · cases ho : oracle i with
      | throws m => simp [runLoop, h, ho, ih]
      | completes outcome =>
        by_cases hs : (verifyKoyebAccountStatus (jsTrim a.email) a.pat outcome).success
          <;> simp [runLoop, h, ho, hs, ih]

/-- When the verification call for index `j` throws, the line recorded
at position `j` carries the exception message. -/
theorem runLoop_get_throws (accounts : List Account) :
    ∀ (i0 j : Nat) (oracle : Nat → VerifyAttempt) (m : String) (a : Account),
      accounts[j]? = some a → oracle (i0 + j) = .throws m →
      jsTrim a.email ≠ "" → a.pat ≠ "" →
      (runLoop accounts i0 oracle).1[j]? = some (exceptionLine (jsTrim a.email) m) := by
  induction accounts with
  | nil => intro i0 j oracle m a hget; simp at hget
  | cons b rest ih =>
    intro i0 j oracle m a hget horacle hemail hpat
    cases j with
    | zero =>
      rw [List.getElem?_cons_zero, Option.some.injEq] at hget
      subst hget
      simp only [Nat.add_zero] at horacle
      have hcond : ¬ (jsTrim b.email = "" ∨ b.pat = "") := by
        intro hco
        cases hco with
        | inl h => exact hemail h
        | inr h => exact hpat h
      simp [runLoop, hcond, horacle]
    | succ k =>
      simp at hget
      have horacle2 : oracle ((i0 + 1) + k) = .throws m := by
        have : (i0 + 1) + k = i0 + (k + 1) := by omega
        rw [this]
        exact horacle
      have tail := ih (i0 + 1) k oracle m a hget horacle2 hemail hpat
      by_cases h : jsTrim b.email = "" ∨ b.pat = ""
      · simp [runLoop, h, tail]
      · cases ho : oracle i0 with
        | throws m2 => simp [runLoop, h, ho, tail]
        | completes outcome => simp [runLoop, h, ho, tail]

/-! ## Claim theorems -/

/-- Claim C10: in the 2xx decision chain the final unknown-account
branch is unreachable — for every flags collection and every
email-validated boolean the chain coincides with the three-branch
classifier (success / inactive / email not validated, after the
mismatch guard). -/
theorem claim_C10_unknown_unreachable (email : String) (b : JsonBody) :
    classifyUser email b = classifyUserThree email b := by
  simp only [classifyUser, classifyUserThree]
  by_cases hm : jsToLower (returnedEmailOf b) = jsToLower email
  · cases ha : (flagsOf b).contains "ACTIVE" <;> cases hv : emailValidatedOf b <;>
      simp [hm, ha, hv]
  · simp [hm]

/-- Claim C1: for a 2xx response, matching identity (case-insensitive) +
ACTIVE flag + email validated yields success; an identity mismatch is
reported as mismatch regardless of the other two conditions; with
matching identity, a missing ACTIVE flag is reported as inactive
regardless of validation; with matching identity and ACTIVE flag, a
non-validated email is reported as email-not-validated. -/
theorem claim_C1_verify_2xx_decision (email pat : String) (resp : HttpResponse)
    (b : JsonBody) (he : email ≠ "") (hp : pat ≠ "")
    (hok : responseOk resp.status = true) (hb : resp.jsonBody = some b) :
    (jsToLower (returnedEmailOf b) = jsToLower email ∧
        (flagsOf b).contains "ACTIVE" = true ∧ emailValidatedOf b = true →
      verifyKoyebAccountStatus email pat (.ok resp) =
        { success := true, message := "活跃且邮箱已验证" })
    ∧ (jsToLower (returnedEmailOf b) ≠ jsToLower email →
      verifyKoyebAccountStatus email pat (.ok resp) =
        { success := false
          message := "验证失败：API返回邮箱(" ++ returnedEmailOf b ++ ")与提供邮箱不匹配。" })
    ∧ (jsToLower (returnedEmailOf b) = jsToLower email →
        (flagsOf b).contains "ACTIVE" = false →
      verifyKoyebAccountStatus email pat (.ok resp) =
        { success := false
          message := "原因: 非活跃 (Flags: " ++ joinSep ", " (flagsOf b) ++ ")" })
    ∧ (jsToLower (returnedEmailOf b) = jsToLower email →
        (flagsOf b).contains "ACTIVE" = true → emailValidatedOf b = false →
      verifyKoyebAccountStatus email pat (.ok resp) =
        { success := false, message := "原因: 邮箱未验证" }) := by
  rw [verify_2xx_eq_classify email pat resp b he hp hok hb]
  refine ⟨?_, ?_, ?_, ?_⟩
  · rintro ⟨h1, h2, h3⟩
    have h2m : "ACTIVE" ∈ flagsOf b := by simpa using h2
    simp [classifyUser, h1, h2m, h3]
  · intro h1
    simp [classifyUser, h1]
  · rintro h1 h2
    have h2m : "ACTIVE" ∉ flagsOf b := by simpa using h2
    simp [classifyUser, h1, h2m]
  · rintro h1 h2 h3
    have h2m : "ACTIVE" ∈ flagsOf b := by simpa using h2
    simp [classifyUser, h1, h2m, h3]

/-- Concrete evaluations of the four branches of claim C1. -/
theorem claim_C1_witness :
    verifyKoyebAccountStatus "a@x.com" "tok"
      (.ok ⟨200, some ⟨some ⟨some "A@X.com", some ["ACTIVE"], some true⟩, none⟩, "", "", "OK"⟩) =
      { success := true, message := "活跃且邮箱已验证" }
    ∧ verifyKoyebAccountStatus "a@x.com" "tok"
      (.ok ⟨200, some ⟨some ⟨some "b@x.com", some [], some false⟩, none⟩, "", "", "OK"⟩) =
      { success := false
        message := "验证失败：API返回邮箱("
          ++ returnedEmailOf ⟨some ⟨some "b@x.com", some [], some false⟩, none⟩
          ++ ")与提供邮箱不匹配。" }
    ∧ verifyKoyebAccountStatus "a@x.com" "tok"
      (.ok ⟨200, some ⟨some ⟨some "a@x.com", some ["STALE"], some true⟩, none⟩, "", "", "OK"⟩) =
      { success := false
        message := "原因: 非活跃 (Flags: "
          ++ joinSep ", " (flagsOf ⟨some ⟨some "a@x.com", some ["STALE"], some true⟩, none⟩)
          ++ ")" }
    ∧ verifyKoyebAccountStatus "a@x.com" "tok"
      (.ok ⟨200, some ⟨some ⟨some "a@x.com", some ["ACTIVE"], some false⟩, none⟩, "", "", "OK"⟩) =
      { success := false, message := "原因: 邮箱未验证" } :=
  ⟨(claim_C1_verify_2xx_decision "a@x.com" "tok"
      ⟨200, some ⟨some ⟨some "A@X.com", some ["ACTIVE"], some true⟩, none⟩, "", "", "OK"⟩
      ⟨some ⟨some "A@X.com", some ["ACTIVE"], some true⟩, none⟩
      (by decide) (by decide) (by decide) rfl).1 (by decide),
   (claim_C1_verify_2xx_decision "a@x.com" "tok"
      ⟨200, some ⟨some ⟨some "b@x.com", some [], some false⟩, none⟩, "", "", "OK"⟩
      ⟨some ⟨some "b@x.com", some [], some false⟩, none⟩
      (by decide) (by decide) (by decide) rfl).2.1 (by decide),
   (claim_C1_verify_2xx_decision "a@x.com" "tok"
      ⟨200, some ⟨some ⟨some "a@x.com", some ["STALE"], some true⟩, none⟩, "", "", "OK"⟩
      ⟨some ⟨some "a@x.com", some ["STALE"], some true⟩, none⟩
      (by decide) (by decide) (by decide) rfl).2.2.1 (by decide) (by decide),
   (claim_C1_verify_2xx_decision "a@x.com" "tok"
      ⟨200, some ⟨some ⟨some "a@x.com", some ["ACTIVE"], some false⟩, none⟩, "", "", "OK"⟩
      ⟨some ⟨some "a@x.com", some ["ACTIVE"], some false⟩, none⟩
      (by decide) (by decide) (by decide) rfl).2.2.2 (by decide) (by decide) (by decide)⟩

/-- Claim C4: HTTP 401 or 403 yields the invalid-or-expired-credential
failure, checked before the generic non-2xx branch; every other non-2xx
status yields the API-error failure embedding the status code and a
message parsed from the JSON body, falling back to the raw response text
when the body is not valid JSON. -/
theorem claim_C4_http_error_branches (email pat : String) (resp : HttpResponse)
    (he : email ≠ "") (hp : pat ≠ "") :
    ((resp.status = 401 ∨ resp.status = 403) →
      verifyKoyebAccountStatus email pat (.ok resp) =
        { success := false, message := "验证失败：PAT 无效或已过期。" })
    ∧ (¬ (resp.status = 401 ∨ resp.status = 403) → responseOk resp.status = false →
      verifyKoyebAccountStatus email pat (.ok resp) =
        { success := false
          message := "原因: API错误 (状态码 " ++ toString resp.status ++ "): "
            ++ apiErrorMessage resp })
    ∧ (resp.jsonBody = none → apiErrorMessage resp = resp.rawText)
    ∧ (∀ bb, resp.jsonBody = some bb →
        apiErrorMessage resp = jsOrStr bb.error resp.statusText) := by
  refine ⟨?_, ?_, ?_, ?_⟩
  · intro h1
    simp [verifyKoyebAccountStatus, he, hp, h1]
  · intro h1 h2
    simp [verifyKoyebAccountStatus, he, hp, h1, h2]
  · intro h
    simp [apiErrorMessage, h]
  · intro bb h
    simp [apiErrorMessage, h]

/-- Concrete evaluations of the branches of claim C4: a 403, a 500 with
a JSON error body, and a 500 whose body fails to parse. -/
theorem claim_C4_witness :
    verifyKoyebAccountStatus "a@x.com" "tok" (.ok ⟨403, none, "", "denied", "Forbidden"⟩) =
      { success := false, message := "验证失败：PAT 无效或已过期。" }
    ∧ verifyKoyebAccountStatus "a@x.com" "tok"
      (.ok ⟨500, some ⟨none, some "boom"⟩, "", "raw", "Internal Server Error"⟩) =
      { success := false
        message := "原因: API错误 (状态码 " ++ toString (500 : Nat) ++ "): "
          ++ apiErrorMessage ⟨500, some ⟨none, some "boom"⟩, "", "raw", "Internal Server Error"⟩ }
    ∧ verifyKoyebAccountStatus "a@x.com" "tok"
      (.ok ⟨502, none, "parse failed", "bad gateway text", "Bad Gateway"⟩) =
      { success := false
        message := "原因: API错误 (状态码 " ++ toString (502 : Nat) ++ "): "
          ++ apiErrorMessage ⟨502, none, "parse failed", "bad gateway text", "Bad Gateway"⟩ }
    ∧ apiErrorMessage ⟨502, none, "parse failed", "bad gateway text", "Bad Gateway"⟩ =
      "bad gateway text"
    ∧ apiErrorMessage ⟨500, some ⟨none, some "boom"⟩, "", "raw", "Internal Server Error"⟩ =
      jsOrStr (some "boom" : Option String) "Internal Server Error" :=
  ⟨(claim_C4_http_error_branches "a@x.com" "tok" ⟨403, none, "", "denied", "Forbidden"⟩
      (by decide) (by decide)).1 (Or.inr rfl),
   (claim_C4_http_error_branches "a@x.com" "tok"
      ⟨500, some ⟨none, some "boom"⟩, "", "raw", "Internal Server Error"⟩
      (by decide) (by decide)).2.1 (by decide) (by decide),
   (claim_C4_http_error_branches "a@x.com" "tok"
      ⟨502, none, "parse failed", "bad gateway text", "Bad Gateway"⟩
      (by decide) (by decide)).2.1 (by decide) (by decide),
   (claim_C4_http_error_branches "a@x.com" "tok"
      ⟨502, none, "parse failed", "bad gateway text", "Bad Gateway"⟩
      (by decide) (by decide)).2.2.1 rfl,
   (claim_C4_http_error_branches "a@x.com" "tok"
      ⟨500, some ⟨none, some "boom"⟩, "", "raw", "Internal Server Error"⟩
      (by decide) (by decide)).2.2.2 ⟨none, some "boom"⟩ rfl⟩

/-- Claim C9: with non-empty credentials, `verifyKoyebAccountStatus`
returns a structured failure for every fault: an abort yields the
timeout reason, a thrown network error yields the network-exception
reason with the error message, and a 2xx response whose body fails to
parse as JSON is caught by the outer handler and reported with the
network-exception reason carrying the parse error message. -/
theorem claim_C9_verify_total (email pat : String)
    (he : email ≠ "") (hp : pat ≠ "") :
    verifyKoyebAccountStatus email pat .abortError =
      { success := false, message := "原因: 请求超时" }
    ∧ (∀ m, verifyKoyebAccountStatus email pat (.otherError m) =
      { success := false, message := "原因: 网络请求异常: " ++ m })
    ∧ (∀ resp : HttpResponse, responseOk resp.status = true → resp.jsonBody = none →
      verifyKoyebAccountStatus email pat (.ok resp) =
        { success := false, message := "原因: 网络请求异常: " ++ resp.parseErrMsg }) := by
  refine ⟨?_, ?_, ?_⟩
  · simp [verifyKoyebAccountStatus, he, hp]
  · intro m
    simp [verifyKoyebAccountStatus, he, hp]
  · intro resp hok hb
    have hrange : 200 ≤ resp.status ∧ resp.status ≤ 299 := by
      rw [responseOk] at hok
      exact of_decide_eq_true hok
    have h1 : ¬ (resp.status = 401 ∨ resp.status = 403) := by omega
    simp [verifyKoyebAccountStatus, he, hp, h1, hok, hb]

/-- Concrete evaluations of the fault branches of claim C9. -/
theorem claim_C9_witness :
    verifyKoyebAccountStatus "a@x.com" "tok" .abortError =
      { success := false, message := "原因: 请求超时" }
    ∧ verifyKoyebAccountStatus "a@x.com" "tok" (.otherError "ECONNRESET") =
      { success := false, message := "原因: 网络请求异常: " ++ "ECONNRESET" }
    ∧ verifyKoyebAccountStatus "a@x.com" "tok" (.ok ⟨200, none, "Unexpected token", "<html>", "OK"⟩) =
      { success := false, message := "原因: 网络请求异常: " ++ "Unexpected token" } :=
  ⟨(claim_C9_verify_total "a@x.com" "tok" (by decide) (by decide)).1,
   (claim_C9_verify_total "a@x.com" "tok" (by decide) (by decide)).2.1 "ECONNRESET",
   (claim_C9_verify_total "a@x.com" "tok" (by decide) (by decide)).2.2
     ⟨200, none, "Unexpected token", "<html>", "OK"⟩ (by decide) rfl⟩

/-- Claim C2: parsing yields exactly the accounts of the well-formed
lines in input-line order — each line is handled independently by the
spec-level per-line rule (split at the first colon, trim both halves,
skip empty/colon-less/empty-half lines without error), and N valid lines
yield exactly N accounts. -/
theorem claim_C2_parse_accounts (raw : String) :
    parseAccountLines raw =
      (splitChar '\n' (trimChars raw.data)).filterMap parseLineSpec
    ∧ (parseAccountLines raw).length =
      ((splitChar '\n' (trimChars raw.data)).filter
        (fun l => (parseLineSpec l).isSome)).length := by
  have hf : parseLine = parseLineSpec := funext parseLine_eq_spec
  have hmain : parseAccountLines raw =
      (splitChar '\n' (trimChars raw.data)).filterMap parseLineSpec := by
    unfold parseAccountLines
    rw [hf]
  exact ⟨hmain, by rw [hmain, length_filterMap_eq]⟩

/-- Claim C8: in the event trace of the main loop, every verification
call is immediately preceded by the fixed 10000 ms sleep, the first
account's call included. -/
theorem claim_C8_throttle_before_verify (accounts : List Account) :
    delayBeforeEveryVerify (loopTrace accounts) = true := by
  induction accounts with
  | nil => rfl
  | cons a rest ih =>
    by_cases h : jsTrim a.email = "" ∨ a.pat = ""
    · simp [loopTrace, h, delayBeforeEveryVerify, ih]
    · simp [loopTrace, h, delayBeforeEveryVerify, ih]

/-- Claim C5: the loop records one line for every account (it never
terminates early), and when the verification call for an account throws,
the line recorded at that account's position carries the exception
message. -/
theorem claim_C5_exception_boundary (accounts : List Account)
    (oracle : Nat → VerifyAttempt) :
    (runLoop accounts 0 oracle).1.length = accounts.length
    ∧ ∀ (j : Nat) (m : String) (a : Account),
        accounts[j]? = some a → oracle j = .throws m →
        jsTrim a.email ≠ "" → a.pat ≠ "" →
        (runLoop accounts 0 oracle).1[j]? =
          some (exceptionLine (jsTrim a.email) m) := by
  refine ⟨runLoop_length accounts 0 oracle, ?_⟩
  intro j m a hget horacle hemail hpat
  have h0 : oracle (0 + j) = .throws m := by simpa using horacle
  exact runLoop_get_throws accounts 0 j oracle m a hget h0 hemail hpat

/-- Concrete evaluation of claim C5: the first account's call throws,
the second account is still processed. -/
theorem claim_C5_witness :
    (runLoop [⟨"a@x.com", "t1"⟩, ⟨"b@x.com", "t2"⟩] 0
        (fun i => if i = 0 then .throws "boom" else .completes .abortError)).1.length = 2
    ∧ (runLoop [⟨"a@x.com", "t1"⟩, ⟨"b@x.com", "t2"⟩] 0
        (fun i => if i = 0 then .throws "boom" else .completes .abortError)).1[0]? =
      some (exceptionLine (jsTrim "a@x.com") "boom") :=
  ⟨(claim_C5_exception_boundary [⟨"a@x.com", "t1"⟩, ⟨"b@x.com", "t2"⟩]
      (fun i => if i = 0 then .throws "boom" else .completes .abortError)).1,
   (claim_C5_exception_boundary [⟨"a@x.com", "t1"⟩, ⟨"b@x.com", "t2"⟩]
      (fun i => if i = 0 then .throws "boom" else .completes .abortError)).2
      0 "boom" ⟨"a@x.com", "t1"⟩ rfl rfl (by decide) (by decide)⟩

/-- Claim C6: the rendered report is one message made of the header with
the run timestamp, the numeric summary whose failure count is
`total - successCount`, a separator, and then the recorded per-account
lines in exactly their recorded order — any line sits after precisely
the concatenation of the lines recorded before it. -/
theorem claim_C6_report_rendering (t : String) (n sc : Nat)
    (pre post : List String) (x : String) :
    renderReport t n sc (pre ++ x :: post) =
      reportHead t n sc ++ (joinAll pre ++ (x ++ joinAll post))
    ∧ reportHead t n sc =
      "🤖 *Koyeb 账户状态报告* 🤖\n=====================\n⏰ 日期: " ++ t ++ "\n"
        ++ reportSummary n sc ++ "\n---------------------------\n"
    ∧ reportSummary n sc =
      "📊 总计: " ++ toString n ++ " 个账户\n✅ 成功: " ++ toString sc
        ++ " 个 | ❌ 失败: " ++ toString (n - sc) ++ " 个" := by
  refine ⟨?_, rfl, rfl⟩
  unfold renderReport
  rw [joinAll_append]
  simp [joinAll]

/-- Configuration loading fails exactly when the raw input is absent, or
present but yielding zero valid accounts (which covers the empty
string). -/
theorem validate_error_iff (env : Option String) :
    (∃ e, validateAndLoadAccounts env = .error e) ↔
      env = none ∨ ∃ raw, env = some raw ∧ parseAccountLines raw = [] := by
  cases env with
  | none =>
    constructor
    · intro _; exact Or.inl rfl
    · intro _; exact ⟨"必须配置 KOYEB_LOGIN 环境变量", rfl⟩
  | some raw =>
    by_cases hr : raw = ""
    · subst hr
      constructor
      · intro _
        exact Or.inr ⟨"", rfl, by decide⟩
      · intro _
        exact ⟨"必须配置 KOYEB_LOGIN 环境变量", rfl⟩
    · by_cases hacc : (parseAccountLines raw).isEmpty
      · constructor
        · intro _
          exact Or.inr ⟨raw, rfl, List.isEmpty_iff.mp hacc⟩
        · intro _
          exact ⟨"KOYEB_LOGIN 环境变量未包含任何有效账户信息",
            by simp [validateAndLoadAccounts, hr, hacc]⟩
      · constructor
        · rintro ⟨e, he⟩
          simp [validateAndLoadAccounts, hr, hacc] at he
        · rintro (h | ⟨raw2, hsome, hparse⟩)
          · exact absurd h (by simp)
          · injection hsome with hh
            subst hh
            rw [hparse] at hacc
            simp at hacc

/-- Claim C3: the exit status is 0 or 1, it is 1 exactly when
configuration loading fails or the loaded account count is positive with
zero successful verifications, and configuration loading fails exactly
when the input is absent or yields zero valid accounts. -/
theorem claim_C3_exit_status (env : Option String) (oracle : Nat → VerifyAttempt)
    (t : String) (tok chat : Option String) (tg1 tg2 : TgOutcome) :
    ((mainRun env oracle t tok chat tg1 tg2).exitCode = 0 ∨
      (mainRun env oracle t tok chat tg1 tg2).exitCode = 1)
    ∧ ((mainRun env oracle t tok chat tg1 tg2).exitCode = 1 ↔
      (∃ e, validateAndLoadAccounts env = .error e) ∨
      ∃ accs, validateAndLoadAccounts env = .ok accs ∧ 0 < accs.length ∧
        (runLoop accs 0 oracle).2 = 0)
    ∧ ((∃ e, validateAndLoadAccounts env = .error e) ↔
      env = none ∨ ∃ raw, env = some raw ∧ parseAccountLines raw = []) := by
  refine ⟨?_, ?_, validate_error_iff env⟩
  · cases hv : validateAndLoadAccounts env with
    | error e => right; simp [mainRun, hv]
    | ok accs =>
      have hne : accs ≠ [] := validate_ok_ne_nil env accs hv
      have hlen : 0 < accs.length := List.length_pos.mpr hne
      by_cases hz : (runLoop accs 0 oracle).2 = 0
      · right; simp [mainRun, hv, hz, hlen]
      · left; simp [mainRun, hv, hz]
  · cases hv : validateAndLoadAccounts env with
    | error e =>
      constructor
      · intro _
        exact Or.inl ⟨e, rfl⟩
      · intro _
        simp [mainRun, hv]
    | ok accs =>
      have hne : accs ≠ [] := validate_ok_ne_nil env accs hv
      have hlen : 0 < accs.length := List.length_pos.mpr hne
      constructor
      · intro h1
        refine Or.inr ⟨accs, rfl, hlen, ?_⟩
        by_contra hz
        simp [mainRun, hv, hz] at h1
      · rintro (⟨e, he⟩ | ⟨accs2, hok2, hlen2, hz2⟩)
        · exact absurd he (by simp)
        · injection hok2 with hh
          subst hh
          simp [mainRun, hv, hz2, hlen]

/-- Claim C7: the Telegram sender returns the null/skip indicator when
either credential is unset (empty or absent), returns null on delivery
failure (HTTP error, timeout abort, or other thrown error), and the
process exit status never depends on the notification credentials or the
delivery outcome. -/
theorem claim_C7_notifier_best_effort (tok chat : Option String) (msg : String)
    (o : TgOutcome) :
    (jsFalsy tok = true ∨ jsFalsy chat = true →
      sendTgMessage tok chat msg o = none)
    ∧ (o = .abortError → sendTgMessage tok chat msg o = none)
    ∧ (∀ m, o = .otherError m → sendTgMessage tok chat msg o = none)
    ∧ (∀ body raw, o = .ok false body raw → sendTgMessage tok chat msg o = none)
    ∧ ∀ (env : Option String) (oracle : Nat → VerifyAttempt) (t : String)
        (tok1 chat1 tok2 chat2 : Option String) (tgA tgB tgC tgD : TgOutcome),
        (mainRun env oracle t tok1 chat1 tgA tgB).exitCode =
          (mainRun env oracle t tok2 chat2 tgC tgD).exitCode := by
  refine ⟨?_, ?_, ?_, ?_, ?_⟩
  · intro h
    have hcond : (jsFalsy tok || jsFalsy chat) = true := by
      cases h with
      | inl h => simp [h]
      | inr h => simp [h]
    simp [sendTgMessage, hcond]
  · intro h
    subst h
    by_cases hcond : (jsFalsy tok || jsFalsy chat) = true <;>
      simp [sendTgMessage, hcond]
  · intro m h
    subst h
    by_cases hcond : (jsFalsy tok || jsFalsy chat) = true <;>
      simp [sendTgMessage, hcond]
  · intro body raw h
    subst h
    by_cases hcond : (jsFalsy tok || jsFalsy chat) = true <;>
      simp [sendTgMessage, hcond]
  · intro env oracle t tok1 chat1 tok2 chat2 tgA tgB tgC tgD
    cases hv : validateAndLoadAccounts env <;> simp [mainRun, hv]

/-- Concrete evaluations of claim C7: unset token, abort, HTTP error,
and exit-status independence from the notification configuration. -/
theorem claim_C7_witness :
    sendTgMessage none (some "cid") "report" (.ok true (some "res") "") = none
    ∧ sendTgMessage (some "tkn") (some "cid") "report" .abortError = none
    ∧ sendTgMessage (some "tkn") (some "cid") "report" (.ok false none "err") = none
    ∧ (mainRun (some "a@x.com:t") (fun _ => .completes .abortError) "2025-01-01"
        none none (.ok true none "") (.ok true none "")).exitCode =
      (mainRun (some "a@x.com:t") (fun _ => .completes .abortError) "2025-01-01"
        (some "tk") (some "cid") .abortError .abortError).exitCode :=
  ⟨(claim_C7_notifier_best_effort none (some "cid") "report"
      (.ok true (some "res") "")).1 (Or.inl rfl),
   (claim_C7_notifier_best_effort (some "tkn") (some "cid") "report"
      .abortError).2.1 rfl,
   (claim_C7_notifier_best_effort (some "tkn") (some "cid") "report"
      (.ok false none "err")).2.2.2.1 none "err" rfl,
   (claim_C7_notifier_best_effort none none "x" .abortError).2.2.2.2
      (some "a@x.com:t") (fun _ => .completes .abortError) "2025-01-01"
      none none (some "tk") (some "cid")
      (.ok true none "") (.ok true none "") .abortError .abortError⟩
